import Mathlib

/-!
Verification of the core state and coordination logic of the evasive-button
mini-game (`src/python_test_0.1.py`).

The development shallowly embeds the Python source into Lean:

* module-level game state (`click_count`, `difficulty`, `mouse_evade_enabled`)
  becomes the record `GameState`, and the state-mutating part of `on_click`
  becomes the transition function `on_click_advance`;
* `random.randint`, `random.choice` and the coin flips `random.random() < p`
  are modelled by explicit seed / boolean inputs, so that quantifying over the
  seeds quantifies over every possible random outcome; `randint lo hi seed`
  ranges over exactly the integers of `[lo, hi]` as `seed` ranges over `Nat`;
* floating-point arithmetic in the evasion handler (`math.hypot`, `/`) is
  idealised as exact real arithmetic, with Python `int(...)` (truncation
  toward zero) modelled by `pyTrunc`;
* the Ollama backend round-trip is modelled by the inductive type
  `BackendBehavior`, whose constructors correspond one-to-one to the points
  where `_generate_with_ollama` can observe a failure (outer exception
  handler, `ollama.RequestError` handler, model-list parsing failure) or a
  successful model listing followed by a generation outcome;
* Python `str.startswith` is modelled character-exactly by `py_startswith`
  and `str.strip` by `py_strip`; the characters of Python string literals
  are reproduced exactly.
-/

namespace EvasiveButton

/-! ## Difficulty state machine (`on_click`, lines 275-401) -/

/-- The module-level game state of the source: `click_count`, `difficulty`
and `mouse_evade_enabled` (lines 81-83). -/
structure GameState where
  clickCount : Nat
  difficulty : Nat
  mouseEvadeEnabled : Bool
deriving Repr, DecidableEq

/-- The initial module state: `click_count = 0`, `difficulty = 0`,
`mouse_evade_enabled = False` (lines 81-83). -/
def initState : GameState :=
  { clickCount := 0, difficulty := 0, mouseEvadeEnabled := false }

/-- The state-mutating part of `on_click` (lines 293-295 and 387-392):
increment `click_count`, then set `difficulty = 4` if `click_count >= 5`
else `click_count - 1`, and `mouse_evade_enabled = difficulty >= 3`. -/
def on_click_advance (s : GameState) : GameState :=
  let cc := s.clickCount + 1
  let d := if cc ≥ 5 then 4 else cc - 1
  { clickCount := cc, difficulty := d, mouseEvadeEnabled := decide (d ≥ 3) }

/-- The state after a sequence of `n` accepted activations. -/
def clicks : Nat → GameState
  | 0 => initState
  | n + 1 => on_click_advance (clicks n)

/-! ## Random primitives

`random.randint(lo, hi)` draws uniformly from the inclusive range
`[lo, hi]`; it is modelled by reducing an arbitrary natural seed modulo the
range size, so that quantifying over the seed quantifies over every possible
draw, and every value of `[lo, hi]` is realised by some seed.  The source
only ever calls it with `lo ≤ hi` (enforced by `max`); the `max 1` guard
merely keeps the definition total. -/

/-- Model of `random.randint(lo, hi)` (uniform on the inclusive range). -/
def randint (lo hi : Int) (seed : Nat) : Int :=
  lo + (seed : Int) % (max 1 (hi - lo + 1))

/-- Model of `random.choice(xs)` on a list of strings: an arbitrary uniform
index reduced modulo the length. -/
def random_choice (xs : List String) (seed : Nat) : String :=
  xs.getD (seed % xs.length) ""

/-- The helper `clamp(x, a, b) = max(a, min(b, x))` defined inside
`apply_post_click_effect` (lines 463-464). -/
def clamp (x a b : Int) : Int := max a (min b x)

/-! ## Post-click effect (`apply_post_click_effect`, lines 404-549)

The function reads the window size `win_w, win_h` and the button size
`b_w, b_h` once at entry (lines 458-461) and then issues a sequence of
`btn.place(x=..., y=...)` calls.  `apply_post_click_positions` returns that
sequence of placed positions, given the difficulty and the random draws.
The level-3 jiggle iterates over the shuffled eight-move list with a
per-move jitter from `randint(-2, 2)`; the bounds theorems hold for every
move/jitter list, hence for every shuffle outcome. -/

/-- The four corner positions of the level-2 jump (lines 488-493). -/
def cornersList (winW winH bw bh : Int) : List (Int × Int) :=
  [(5, 40), (winW - bw - 5, 40), (5, winH - bh - 5),
   (winW - bw - 5, winH - bh - 5)]

/-- The unconditional level-0 nudge (lines 467-469):
`randint(10, max(10, win_w-b_w-10))`, `randint(40, max(40, win_h-b_h-10))`. -/
def nudgePos (winW winH bw bh : Int) (sx sy : Nat) : Int × Int :=
  (randint 10 (max 10 (winW - bw - 10)) sx,
   randint 40 (max 40 (winH - bh - 10)) sy)

/-- The level-2 stronger repositioning (lines 485-499): either a jump to a
random corner, or a random position with tighter margins. -/
def level2Pos (winW winH bw bh : Int) (corner : Bool) (ci sx sy : Nat) :
    Int × Int :=
  if corner then (cornersList winW winH bw bh).getD (ci % 4) (5, 40)
  else (randint 5 (max 5 (winW - bw - 5)) sx,
        randint 40 (max 40 (winH - bh - 5)) sy)

/-- One jiggle move (lines 514-523): add the shuffled move `m` plus the
jitter `j` (each component drawn from `randint(-2, 2)`) to the current
position and clamp to `[0, max(0, win_w-b_w)] x [40, max(40, win_h-b_h)]`. -/
def jiggleStep (winW winH bw bh : Int) (p m j : Int × Int) : Int × Int :=
  (clamp (p.1 + m.1 + j.1) 0 (max 0 (winW - bw)),
   clamp (p.2 + m.2 + j.2) 40 (max 40 (winH - bh)))

/-- The sequence of positions placed by the jiggle loop, starting from the
current position `p` and processing the (move, jitter) pairs in order. -/
def jiggleSeq (winW winH bw bh : Int) (p : Int × Int) :
    List ((Int × Int) × (Int × Int)) → List (Int × Int)
  | [] => []
  | mj :: rest =>
      let q := jiggleStep winW winH bw bh p mj.1 mj.2
      q :: jiggleSeq winW winH bw bh q rest

/-- All random draws consumed by one `apply_post_click_effect` call that
affect button positions. -/
structure PostClickRand where
  nudgeSX : Nat
  nudgeSY : Nat
  jumpCoin : Bool
  cornerCoin : Bool
  cornerIdx : Nat
  jumpSX : Nat
  jumpSY : Nat
  jiggleMJ : List ((Int × Int) × (Int × Int))

/-- The sequence of positions that `apply_post_click_effect` passes to
`btn.place`, in order: the unconditional nudge (lines 467-469), then, when
`difficulty >= 2` and the 40% coin comes up, the stronger jump
(lines 482-499), then, when `difficulty >= 3`, the eight jiggle positions
(lines 501-526).  The jiggle starts from the most recently placed
position (`btn.winfo_x/y`). -/
def apply_post_click_positions (difficulty winW winH bw bh : Int)
    (r : PostClickRand) : List (Int × Int) :=
  let p0 := nudgePos winW winH bw bh r.nudgeSX r.nudgeSY
  let ps1 :=
    if 2 ≤ difficulty ∧ r.jumpCoin then
      [level2Pos winW winH bw bh r.cornerCoin r.cornerIdx r.jumpSX r.jumpSY]
    else []
  let pCur := ps1.getLastD p0
  let ps2 :=
    if 3 ≤ difficulty then jiggleSeq winW winH bw bh pCur r.jiggleMJ
    else []
  p0 :: (ps1 ++ ps2)

/-- The reserved top margin: every placement keeps `y >= 40`, leaving space
for the label (comment at line 1018, constants at lines 468, 490-498, 522,
594). -/
def topMargin : Int := 40

/-- Position `p` keeps the target fully inside the `winW x winH` surface
minus the reserved top margin, for a target of size `bw x bh`. -/
def inBoundsPos (winW winH bw bh : Int) (p : Int × Int) : Prop :=
  0 ≤ p.1 ∧ p.1 ≤ winW - bw ∧ topMargin ≤ p.2 ∧ p.2 ≤ winH - bh

instance (winW winH bw bh : Int) (p : Int × Int) :
    Decidable (inBoundsPos winW winH bw bh p) := by
  unfold inBoundsPos; infer_instance

/-! ## Post-click size effects (lines 471-480 and 529-534)

`apply_post_click_effect` manipulates the button width (in Tk character
units, `btn.cget("width")`): at level >= 1 a 50% coin triggers a +-2 resize
with one-sided clamps (`max(6, w-2)` when shrinking, `min(20, w+2)` when
growing), and at level >= 4 a 60% coin triggers a further resize
`max(4, min(30, w + randint(-4, 4)))` together with a height change
`randint(1, 3)`. -/

/-- The level-1 resize body (lines 473-480): shrink to `max(6, w-2)` or grow
to `min(20, w+2)`, each direction chosen by a 50% coin. -/
def level1_resize (w : Int) (shrink : Bool) : Int :=
  if shrink then max 6 (w - 2) else min 20 (w + 2)

/-- The level-4 width resize (line 532): `max(4, min(30, w + randint(-4,4)))`. -/
def level4_resize (w : Int) (seed : Nat) : Int :=
  max 4 (min 30 (w + randint (-4) 4 seed))

/-- The button width after one `apply_post_click_effect` call:
the level-1 stage (applied when `difficulty >= 1` and its 50% coin `sizeCoin`
comes up, with direction `shrink`), then the level-4 stage (applied when
`difficulty >= 4` and its 60% coin `lvl4Coin` comes up). -/
def post_click_width (difficulty w : Int) (sizeCoin shrink lvl4Coin : Bool)
    (seed4 : Nat) : Int :=
  let w1 := if 1 ≤ difficulty ∧ sizeCoin then level1_resize w shrink else w
  if 4 ≤ difficulty ∧ lvl4Coin then level4_resize w1 seed4 else w1

/-! ## Evasion handler (`on_mouse_move`, lines 552-595)

The handler returns immediately unless `mouse_evade_enabled` is set.  It
computes the distance from the cursor `(cx, cy)` to the button center
`(bx + bw/2, by + bh/2)` with `math.hypot`, and when `1 < dist < 100` moves
the button by `step = int(max(20, (100-dist)/2))` units along the unit
repulsion vector, truncating each coordinate with `int(...)` and clamping to
`[0, win_w-bw] x [40, win_h-bh]`.  Float arithmetic is idealised as exact
real arithmetic; Python `int()` truncation toward zero is `pyTrunc`. -/

/-- The geometry read by `on_mouse_move` (lines 562-569, 590-592): button
position `(bx, byy)` and size `(bw, bh)`, cursor `(cx, cy)`, window size
`(winW, winH)`.  All are integers in Tk. -/
structure EvasionInput where
  bx : Int
  byy : Int
  bw : Int
  bh : Int
  cx : Int
  cy : Int
  winW : Int
  winH : Int
deriving Repr, DecidableEq

/-- Python `int(x)`: truncation toward zero. -/
noncomputable def pyTrunc (x : ℝ) : Int :=
  if 0 ≤ x then ⌊x⌋ else ⌈x⌉

/-- The squared distance from the cursor to the center of the button when
the button sits at position `p` (exact rational arithmetic). -/
def ptrDistSq (inp : EvasionInput) (p : Int × Int) : ℚ :=
  ((p.1 : ℚ) + (inp.bw : ℚ) / 2 - (inp.cx : ℚ)) ^ 2 +
    ((p.2 : ℚ) + (inp.bh : ℚ) / 2 - (inp.cy : ℚ)) ^ 2

/-- The distance `math.hypot(bc_x - cx, bc_y - cy)` of line 576. -/
noncomputable def evadeDist (inp : EvasionInput) : ℝ :=
  Real.sqrt ((ptrDistSq inp (inp.bx, inp.byy) : ℝ))

/-- The step `int(max(20, (threshold - dist) / 2))` of line 585. -/
noncomputable def evadeStep (dist : ℝ) : Int :=
  pyTrunc (max 20 ((100 - dist) / 2))

/-- The unclamped new x coordinate `int(bx + (vx / dist) * step)` (line 586). -/
noncomputable def evadeNewX (inp : EvasionInput) : Int :=
  pyTrunc ((inp.bx : ℝ) +
    ((inp.bx : ℝ) + (inp.bw : ℝ) / 2 - (inp.cx : ℝ)) / evadeDist inp *
      ((evadeStep (evadeDist inp) : Int) : ℝ))

/-- The unclamped new y coordinate `int(by + (vy / dist) * step)` (line 587). -/
noncomputable def evadeNewY (inp : EvasionInput) : Int :=
  pyTrunc ((inp.byy : ℝ) +
    ((inp.byy : ℝ) + (inp.bh : ℝ) / 2 - (inp.cy : ℝ)) / evadeDist inp *
      ((evadeStep (evadeDist inp) : Int) : ℝ))

/-- The full `on_mouse_move` handler (lines 552-595): `none` models an early
return with no `btn.place` call, `some (x, y)` the placement that occurs.
The state `s` supplies `mouse_evade_enabled` (line 559). -/
noncomputable def on_mouse_move (s : GameState) (inp : EvasionInput) :
    Option (Int × Int) :=
  if s.mouseEvadeEnabled = false then none
  else if evadeDist inp < 100 ∧ 1 < evadeDist inp then
    some (max 0 (min (evadeNewX inp) (inp.winW - inp.bw)),
          max 40 (min (evadeNewY inp) (inp.winH - inp.bh)))
  else none

/-- A concrete geometry: button at `(0, 40)` (top-left corner of the
allowed region) of size `10 x 10`, cursor at `(55, 45)` (50 units to the
right of the button center), in a `320 x 240` window. -/
def inp0 : EvasionInput :=
  { bx := 0, byy := 40, bw := 10, bh := 10, cx := 55, cy := 45,
    winW := 320, winH := 240 }

/-- A concrete geometry with the cursor 200 units below the button center
(distance at least the threshold). -/
def inpB : EvasionInput :=
  { bx := 100, byy := 50, bw := 16, bh := 10, cx := 108, cy := 255,
    winW := 320, winH := 240 }

/-- A concrete geometry with the cursor 50 units away from the button
center along a 3-4-5 triangle, with room to move. -/
def inpC : EvasionInput :=
  { bx := 100, byy := 50, bw := 16, bh := 10, cx := 78, cy := 15,
    winW := 320, winH := 240 }

/-! ## Backend commentary (`_generate_with_ollama` lines 598-647,
`_fetch_and_show_snark` lines 648-661, dispatch in `on_click` lines 379-385)

`_generate_with_ollama` signals every failure in-band, returning a string
that starts with `"Error:"`; `_fetch_and_show_snark` checks that sentinel
with `str.startswith`.  `BackendBehavior` enumerates the observable
behaviours of the backend round-trip, one constructor per control path of
the source; exception detail text is carried as a `String` parameter.
Python list rendering inside messages is simplified to a comma-joined list;
only the `"Error:"` sentinel structure matters to the claims. -/

/-- The model name, `os.environ.get("OLLAMA_MODEL", "tinyllama:latest")`
(line 245), modelled at its default value; every definition that reads it
takes the model name as a parameter, so the theorems cover any value. -/
def OLLAMA_MODEL : String := "tinyllama:latest"

/-- `OLLAMA_TIMEOUT_SEC = 30` (line 246). -/
def OLLAMA_TIMEOUT_SEC : Nat := 30

/-- The canned fallback lines `FALLBACK_SNARK` (lines 252-258). -/
def FALLBACK_SNARK : List String :=
  ["Oh, clicking buttons are we? How... predictable.",
   "Your persistence is amusing, but futile.",
   "Do you really have nothing better to do?",
   "Ah, humans and their compulsive button-clicking.",
   "This is becoming rather pathetic, isn\x27t it?"]

/-- Python `str.startswith`: prefix test on the character sequence. -/
def py_startswith (s pre : String) : Bool :=
  pre.data.isPrefixOf s.data

/-- Python `str.strip()`: drop whitespace from both ends of the character
sequence. -/
def py_strip (s : String) : String :=
  String.mk (((s.data.dropWhile Char.isWhitespace).reverse.dropWhile
    Char.isWhitespace).reverse)

/-- The keyword arguments passed to `ollama.Client(...)` at line 605: only
`host` is supplied; no timeout is passed (`timeoutSec := none`). -/
structure ClientConfig where
  host : String
  timeoutSec : Option Nat
deriving Repr, DecidableEq

/-- The client construction `ollama.Client(host="http://localhost:11434")`
(line 605). -/
def client_args : ClientConfig :=
  { host := "http://localhost:11434", timeoutSec := none }

/-- The keyword arguments passed to `client.generate(...)` at lines 632-636:
`model`, `prompt`, `stream=False`; no timeout is passed. -/
structure GenerateCall where
  model : String
  prompt : String
  stream : Bool
  timeoutSec : Option Nat
deriving Repr, DecidableEq

/-- The generate call of lines 632-636. -/
def generate_call_args (model prompt : String) : GenerateCall :=
  { model := model, prompt := prompt, stream := false, timeoutSec := none }

/-- Outcome of the generation request once the model listing succeeded. -/
inductive GenBehavior where
  /-- `client.generate` raises `ollama.RequestError` (caught at line 639). -/
  | raiseRequest (msg : String)
  /-- `client.generate` raises any other exception, including a transport
  timeout or a malformed response missing the `response` key (caught by the
  outer handler at line 644). -/
  | raiseOther (msg : String)
  /-- `client.generate` returns a response whose `response` field is
  `resp`; the source returns `resp.strip()` (line 637). -/
  | ok (resp : String)
deriving Repr, DecidableEq

/-- Observable behaviour of one backend round-trip of
`_generate_with_ollama`, one constructor per control path of the source. -/
inductive BackendBehavior where
  /-- client construction or connection raises (connection error, timeout
  outside the inner `try`): caught by the outer handler at line 644. -/
  | raiseOuter (msg : String)
  /-- `client.list()` raises `ollama.RequestError`: caught at line 639. -/
  | raiseRequest (msg : String)
  /-- iterating `models.models` raises: caught at lines 618-620, returning
  the malformed-response message. -/
  | parseFailure (msg : String)
  /-- `client.list()` succeeds with the model names `names`; the round trip
  continues with the model-present check and the generation `gen`. -/
  | listOk (names : List String) (gen : GenBehavior)
deriving Repr, DecidableEq

/-- `_generate_with_ollama` (lines 598-647): returns the generated string,
or an in-band error message starting with `"Error:"` on every failure. -/
def generate_with_ollama (model : String) (b : BackendBehavior) : String :=
  match b with
  | BackendBehavior.raiseOuter msg => "Error: Ollama client error: " ++ msg
  | BackendBehavior.raiseRequest msg => "Error: Ollama request failed: " ++ msg
  | BackendBehavior.parseFailure _ => "Error: Could not parse model list"
  | BackendBehavior.listOk names gen =>
      if model ∈ names then
        match gen with
        | GenBehavior.raiseRequest msg =>
            "Error: Ollama request failed: " ++ msg
        | GenBehavior.raiseOther msg =>
            "Error: Ollama client error: " ++ msg
        | GenBehavior.ok resp => py_strip resp
      else
        "Error: Model " ++ model ++ " not found. Available models: " ++
          String.intercalate ", " names

/-- The text selected by the background worker `_fetch_and_show_snark`
(lines 648-661): a fallback line when the LLM is disabled, a prefixed
fallback line when the generation returned an `"Error:"`-sentinel string, a
plain fallback line when it returned an empty string, and the generated
text otherwise.  `llmEnabled` is the value of the global flag when the
worker runs. -/
def fetch_snark_text (llmEnabled : Bool) (model : String)
    (b : BackendBehavior) (seed : Nat) : String :=
  if llmEnabled = false then random_choice FALLBACK_SNARK seed
  else
    let text := generate_with_ollama model b
    if py_startswith text "Error:" then
      "Falling back to: " ++ random_choice FALLBACK_SNARK seed
    else if text = "" then random_choice FALLBACK_SNARK seed
    else text

/-- The fixed acknowledgement `messagebox.showinfo("Really?", f"Click
#{click_count}... I see how it is.")` shown by `on_click` when the LLM is
disabled at click time (line 385). -/
def click_ack_message (clickCount : Nat) : String :=
  "Click #" ++ toString clickCount ++ "... I see how it is."

/-- The commentary messages displayed for one activation (lines 379-385
with the worker of lines 648-661): when `llm_enabled` holds at click time,
one background worker runs and shows exactly one text (the worker re-reads
`llm_enabled`, given here as `enabledAtWorker`); otherwise `on_click` shows
the fixed acknowledgement immediately. -/
def activation_results (enabledAtClick enabledAtWorker : Bool)
    (clickCount : Nat) (model : String) (b : BackendBehavior)
    (seed : Nat) : List String :=
  if enabledAtClick then [fetch_snark_text enabledAtWorker model b seed]
  else [click_ack_message clickCount]

/-! ## Commentary dialog styling (`DIALOG_THEMES` lines 134-165, `_show`
closure lines 663-676) -/

/-- One entry of `DIALOG_THEMES`. -/
structure DialogTheme where
  bg : String
  fg : String
  fontFamily : String
  fontSize : Nat
  fontWeight : String
  title : String
deriving Repr, DecidableEq, Inhabited

/-- The five dialog themes (lines 134-165). -/
def DIALOG_THEMES : List DialogTheme :=
  [{ bg := "#2d2d2d", fg := "#ffffff", fontFamily := "Segoe UI",
     fontSize := 10, fontWeight := "normal", title := "Really?" },
   { bg := "#2d2d35", fg := "#55E0B7", fontFamily := "Segoe UI",
     fontSize := 10, fontWeight := "bold", title := "Oh Really?" },
   { bg := "#2d2d3d", fg := "#00AAC09B", fontFamily := "Segoe UI",
     fontSize := 11, fontWeight := "bold", title := "REALLY??" },
   { bg := "#2d2d45", fg := "#6d49a7", fontFamily := "Segoe UI",
     fontSize := 12, fontWeight := "bold", title := "SERIOUSLY?!" },
   { bg := "#2d2d4d", fg := "#A1448A", fontFamily := "Segoe UI",
     fontSize := 13, fontWeight := "bold", title := "OH COME ON!!" }]

/-- The theme lookup `DIALOG_THEMES[min(difficulty, len(DIALOG_THEMES)-1)]`
(line 670). -/
def dialog_theme_for (difficulty : Nat) : DialogTheme :=
  DIALOG_THEMES.getD (min difficulty (DIALOG_THEMES.length - 1)) default

/-- The `_show` closure posted by `_fetch_and_show_snark` (lines 663-676):
it captures only the text; the difficulty used for styling is read from the
module-level state `s` current when the closure finally runs on the UI
thread. -/
def show_task (text : String) (s : GameState) : DialogTheme × String :=
  (dialog_theme_for s.difficulty, text)

/-! ## Heartbeat monitor (`start_heartbeat` lines 925-931,
`_ollama_heartbeat_loop` lines 877-883)

`start_heartbeat` returns early when `_heartbeat_running` is set, but the
flag is only assigned inside the spawned loop body, after the thread has
been scheduled.  The interleaving of `start_heartbeat` calls and loop-body
startups is modelled as a transition system: `callStart` is one call of
`start_heartbeat` (test flag, spawn a thread when clear), `enterLoop` is a
spawned thread reaching the first lines of `_ollama_heartbeat_loop`
(setting `_heartbeat_running = True` and entering the `while`). -/

/-- Shared state: the `_heartbeat_running` flag, the number of spawned
threads that have not yet entered the loop body, and the number of running
heartbeat loops. -/
structure HeartbeatSys where
  running : Bool
  spawned : Nat
  loops : Nat
deriving Repr, DecidableEq

/-- Events of the heartbeat start protocol. -/
inductive HBEvent where
  | callStart
  | enterLoop
deriving Repr, DecidableEq

/-- One step of the protocol: `callStart` executes lines 927-931 (return if
the flag is set, otherwise spawn); `enterLoop` executes lines 881-883 of a
spawned thread (set the flag, start looping). -/
def hb_step (s : HeartbeatSys) : HBEvent → HeartbeatSys
  | HBEvent.callStart =>
      if s.running then s else { s with spawned := s.spawned + 1 }
  | HBEvent.enterLoop =>
      if s.spawned = 0 then s
      else { running := true, spawned := s.spawned - 1, loops := s.loops + 1 }

/-- The initial shared state: `_heartbeat_running = False` (line 271), no
threads. -/
def hb_init : HeartbeatSys := { running := false, spawned := 0, loops := 0 }

/-- Run a sequence of interleaved events from the initial state. -/
def hb_run (es : List HBEvent) : HeartbeatSys := es.foldl hb_step hb_init

/-! ## Startup quick check (`_ollama_heartbeat_once` lines 828-872,
`_ollama_quick_check` lines 934-971)

`_ollama_heartbeat_once` returns a dict with exactly the keys `service`,
`model` and `debug`; `_ollama_quick_check` immediately reads `res['cli']`.
Dicts are modelled as association lists over a Python-value type, with
lookup failure (`KeyError`) as the error of an `Except` computation; the
whole body of `_ollama_quick_check` sits inside its `try`, whose
`except Exception` branch only writes the failure log line.  Python renders
`KeyError` detail with quotes; the embedding renders the bare key name. -/

/-- A Python value stored in the heartbeat dict. -/
inductive PyVal where
  | b (v : Bool)
  | s (v : String)
deriving Repr, DecidableEq

/-- Python truthiness of a stored value. -/
def truthy : PyVal → Bool
  | PyVal.b v => v
  | PyVal.s v => !v.isEmpty

/-- Rendering of a stored value into an f-string. -/
def pvText : PyVal → String
  | PyVal.b v => if v then "True" else "False"
  | PyVal.s v => v

/-- Dict lookup: `d[k]`, raising `KeyError` when the key is absent. -/
def dict_get (d : List (String × PyVal)) (k : String) : Except String PyVal :=
  match d.find? (fun kv => kv.1 == k) with
  | some kv => Except.ok kv.2
  | none => Except.error ("KeyError: " ++ k)

/-- The dict returned by `_ollama_heartbeat_once` (lines 868-872): exactly
the keys `service`, `model` and `debug`. -/
def heartbeat_once (service model : Bool) (dbg : String) :
    List (String × PyVal) :=
  [("service", PyVal.b service), ("model", PyVal.b model),
   ("debug", PyVal.s dbg)]

/-- The effect of `_ollama_quick_check` on its surroundings: the indicator
update posted to the UI thread (text and colour), if any, and the debug log
line written. -/
structure QuickCheckEffect where
  indicator : Option (String × String)
  logLine : String
deriving Repr, DecidableEq

/-- The body of the `try` block of `_ollama_quick_check` (lines 941-969),
in source order: read `res['cli']`, derive the indicator text and colour,
then write the log line from `res["debug"]` or the summary. -/
def quick_check_body (res : List (String × PyVal)) :
    Except String QuickCheckEffect := do
  let cli ← dict_get res "cli"
  let ind ←
    if truthy cli = false then
      pure (some ("LLM: Off (no ollama)", "red"))
    else do
      let m ← dict_get res "model"
      if truthy m then pure (some ("LLM: On (ready)", "green"))
      else pure (some ("LLM: On (no model)", "orange"))
  let dbg ← dict_get res "debug"
  let log ←
    if truthy dbg then pure ("Quick check: " ++ pvText dbg)
    else do
      let sv ← dict_get res "service"
      let mv ← dict_get res "model"
      pure ("Quick check: cli=" ++ pvText sv ++ " model=" ++ pvText mv)
  pure { indicator := ind, logLine := log }

/-- `_ollama_quick_check` (lines 934-971): run the body; on any exception,
update nothing and log the failure (lines 970-971). -/
def ollama_quick_check (service model : Bool) (dbg : String) :
    QuickCheckEffect :=
  match quick_check_body (heartbeat_once service model dbg) with
  | Except.ok eff => eff
  | Except.error e =>
      { indicator := none, logLine := "Quick check failed: " ++ e }

/-! ## Helper lemmas -/

/-- Closed form of the state after `n` activations. -/
lemma clicks_eq (n : Nat) :
    clicks n =
      { clickCount := n, difficulty := min n 5 - 1,
        mouseEvadeEnabled := decide (min n 5 - 1 ≥ 3) } := by
  induction n with
  | zero => rfl
  | succ n ih =>
      simp only [clicks, ih, on_click_advance]
      have h : (if n + 1 ≥ 5 then 4 else n + 1 - 1) = min (n + 1) 5 - 1 := by
        split <;> omega
      rw [h]

lemma randint_mem (lo hi : Int) (seed : Nat) (h : lo ≤ hi) :
    lo ≤ randint lo hi seed ∧ randint lo hi seed ≤ hi := by
  unfold randint
  have hm : max 1 (hi - lo + 1) = hi - lo + 1 := by omega
  rw [hm]
  have h1 : 0 ≤ (seed : Int) % (hi - lo + 1) :=
    Int.emod_nonneg _ (by omega)
  have h2 : (seed : Int) % (hi - lo + 1) < hi - lo + 1 :=
    Int.emod_lt_of_pos _ (by omega)
  omega

lemma clamp_mem (x a b : Int) (h : a ≤ b) :
    a ≤ clamp x a b ∧ clamp x a b ≤ b := by
  unfold clamp
  exact ⟨le_max_left _ _, max_le h (min_le_left _ _)⟩

/-! ## C1 -/

/-- C1: for every sequence of `n` accepted activations starting from the
initial state, the click count equals `n` and the difficulty level equals
`min(n,5) - 1` clamped to `[0,4]`; over successive activations the level
follows the sequence `0,1,2,3,4,4,...` (after activation `n+1` it is
`min n 4`), never decreases, and never advances by more than one step per
click. -/
theorem difficulty_progression (n : Nat) :
    (clicks n).clickCount = n ∧
    ((clicks n).difficulty : Int) = max 0 (min (n : Int) 5 - 1) ∧
    (clicks n).difficulty ≤ 4 ∧
    (clicks (n + 1)).difficulty = min n 4 ∧
    (clicks n).difficulty ≤ (clicks (n + 1)).difficulty ∧
    (clicks (n + 1)).difficulty ≤ (clicks n).difficulty + 1 := by
  refine ⟨?_, ?_, ?_, ?_, ?_, ?_⟩ <;>
    simp only [clicks_eq] <;> omega

/-! ## C6 -/

/-- C6: the source defines `OLLAMA_TIMEOUT_SEC = 30` but never applies it:
the Ollama client is constructed with a host argument only and the generate
call passes only `model`, `prompt` and `stream=False`, so no backend
round-trip carries the 30-unit timeout the configuration comment promises. -/
theorem timeout_never_applied :
    client_args.timeoutSec = none ∧
    (∀ model prompt : String,
      (generate_call_args model prompt).timeoutSec = none ∧
      (generate_call_args model prompt).stream = false) ∧
    OLLAMA_TIMEOUT_SEC = 30 :=
  ⟨rfl, fun _ _ => ⟨rfl, rfl⟩, rfl⟩

/-! ## C7 -/

/-- C7: `start_heartbeat` is not idempotent under the claimed interleaving:
two `start_heartbeat` calls that both run before either spawned thread has
executed the first line of `_ollama_heartbeat_loop` both see
`_heartbeat_running == False` and both spawn, so two heartbeat loops end up
running (the claim requires exactly one).  The second conjunct checks the
half that does hold: once the flag is set, a further call is a no-op. -/
theorem heartbeat_start_race :
    (hb_run [HBEvent.callStart, HBEvent.callStart,
             HBEvent.enterLoop, HBEvent.enterLoop]).loops = 2 ∧
    (hb_run [HBEvent.callStart, HBEvent.callStart,
             HBEvent.enterLoop, HBEvent.enterLoop]).loops ≠ 1 ∧
    (∀ sp lp : Nat,
      hb_step { running := true, spawned := sp, loops := lp }
          HBEvent.callStart =
        { running := true, spawned := sp, loops := lp }) := by
  refine ⟨by decide, by decide, fun sp lp => ?_⟩
  simp [hb_step]

/-! ## C9 -/

/-- C9: for every backend state, the heartbeat result dict contains exactly
the keys `service`, `model` and `debug`, so `_ollama_quick_check` raises a
`KeyError` on `res['cli']`, always lands in its exception branch, logs a
`Quick check failed` line, and never updates the LLM status indicator. -/
theorem quick_check_always_fails (service model : Bool) (dbg : String) :
    (heartbeat_once service model dbg).map Prod.fst =
      ["service", "model", "debug"] ∧
    dict_get (heartbeat_once service model dbg) "cli" =
      Except.error ("KeyError: " ++ "cli") ∧
    ollama_quick_check service model dbg =
      { indicator := none,
        logLine := "Quick check failed: " ++ ("KeyError: " ++ "cli") } := by
  refine ⟨rfl, rfl, rfl⟩

/-! ## In-band error sentinel lemmas -/

lemma gen_error_outer (model msg : String) :
    py_startswith (generate_with_ollama model (BackendBehavior.raiseOuter msg))
      "Error:" = true := by
  unfold generate_with_ollama py_startswith
  rw [String.data_append]
  rfl

lemma gen_error_request (model msg : String) :
    py_startswith
      (generate_with_ollama model (BackendBehavior.raiseRequest msg))
      "Error:" = true := by
  unfold generate_with_ollama py_startswith
  rw [String.data_append]
  rfl

lemma gen_error_parse (model msg : String) :
    py_startswith
      (generate_with_ollama model (BackendBehavior.parseFailure msg))
      "Error:" = true := rfl

lemma gen_error_missing (model : String) (names : List String)
    (gen : GenBehavior) (h : model ∉ names) :
    py_startswith
      (generate_with_ollama model (BackendBehavior.listOk names gen))
      "Error:" = true := by
  simp only [generate_with_ollama]
  rw [if_neg h]
  unfold py_startswith
  rw [String.data_append, String.data_append, String.data_append]
  rfl

lemma gen_error_gen_request (model : String) (names : List String)
    (msg : String) (h : model ∈ names) :
    py_startswith
      (generate_with_ollama model
        (BackendBehavior.listOk names (GenBehavior.raiseRequest msg)))
      "Error:" = true := by
  simp only [generate_with_ollama]
  rw [if_pos h]
  unfold py_startswith
  rw [String.data_append]
  rfl

lemma gen_error_gen_other (model : String) (names : List String)
    (msg : String) (h : model ∈ names) :
    py_startswith
      (generate_with_ollama model
        (BackendBehavior.listOk names (GenBehavior.raiseOther msg)))
      "Error:" = true := by
  simp only [generate_with_ollama]
  rw [if_pos h]
  unfold py_startswith
  rw [String.data_append]
  rfl

lemma fallback_text_not_error (r : String) :
    py_startswith ("Falling back to: " ++ r) "Error:" = false := by
  unfold py_startswith
  rw [String.data_append]
  rfl

/-! ## C2 -/

/-- C2 counterexample: for an activation with commentary generation
disabled, the displayed text is the fixed acknowledgement
`Click #1... I see how it is.` produced directly by `on_click`, which is
not one of the five fallback lines — no uniformly random fallback line is
selected for that activation, refuting the claim as stated. -/
theorem commentary_disabled_ce :
    activation_results false false 1 OLLAMA_MODEL
        (BackendBehavior.raiseOuter "connection refused") 0 =
      ["Click #1... I see how it is."] ∧
    "Click #1... I see how it is." ∉ FALLBACK_SNARK :=
  ⟨rfl, by decide⟩

/-- C2 (amended): every activation displays exactly one commentary message.
When generation is disabled at click time, `on_click` immediately shows a
fixed acknowledgement carrying the click count (not a random fallback
line).  When it is enabled at click time, exactly one background worker
result is shown: a uniformly random fallback line if the flag was cleared
by the time the worker ran, the prefixed text `Falling back to: <random
fallback line>` whenever the backend round-trip produced an in-band
`Error:` string, which every failure path does (outer exception,
`ollama.RequestError`, malformed model list, missing model,
`ollama.RequestError` or any other exception during generation).  No
failure escapes: the round-trip and the worker produce a result for every
backend behaviour, and the random choice ranges over exactly the five
fallback lines. -/
theorem commentary_single_result (ec ew : Bool) (cc : Nat) (model : String)
    (b : BackendBehavior) (seed : Nat) :
    (activation_results ec ew cc model b seed).length = 1 ∧
    (ec = false →
      activation_results ec ew cc model b seed = [click_ack_message cc]) ∧
    (ec = true → ew = false →
      activation_results ec ew cc model b seed =
        [random_choice FALLBACK_SNARK seed]) ∧
    (ec = true → ew = true →
      py_startswith (generate_with_ollama model b) "Error:" = true →
      activation_results ec ew cc model b seed =
        ["Falling back to: " ++ random_choice FALLBACK_SNARK seed]) ∧
    (∀ msg, py_startswith
      (generate_with_ollama model (BackendBehavior.raiseOuter msg))
      "Error:" = true) ∧
    (∀ msg, py_startswith
      (generate_with_ollama model (BackendBehavior.raiseRequest msg))
      "Error:" = true) ∧
    (∀ msg, py_startswith
      (generate_with_ollama model (BackendBehavior.parseFailure msg))
      "Error:" = true) ∧
    (∀ names gen, model ∉ names →
      py_startswith
        (generate_with_ollama model (BackendBehavior.listOk names gen))
        "Error:" = true) ∧
    (∀ names msg, model ∈ names →
      py_startswith
        (generate_with_ollama model
          (BackendBehavior.listOk names (GenBehavior.raiseRequest msg)))
        "Error:" = true) ∧
    (∀ names msg, model ∈ names →
      py_startswith
        (generate_with_ollama model
          (BackendBehavior.listOk names (GenBehavior.raiseOther msg)))
        "Error:" = true) ∧
    (∀ k, k < FALLBACK_SNARK.length →
      random_choice FALLBACK_SNARK k = FALLBACK_SNARK.getD k "") := by
  refine ⟨?_, ?_, ?_, ?_, gen_error_outer model, gen_error_request model,
    gen_error_parse model, fun names gen h => gen_error_missing model names gen h,
    fun names msg h => gen_error_gen_request model names msg h,
    fun names msg h => gen_error_gen_other model names msg h, ?_⟩
  · unfold activation_results
    split <;> rfl
  · intro h
    subst h
    rfl
  · intro h1 h2
    subst h1
    subst h2
    rfl
  · intro h1 h2 hp
    subst h1
    subst h2
    simp only [activation_results, if_pos, fetch_snark_text]
    simp [hp]
  · intro k hk
    have hk5 : k < 5 := by simpa [FALLBACK_SNARK] using hk
    interval_cases k <;> rfl

/-- C2 witness: concrete instances of the amended behaviour, obtained from
`commentary_single_result`: a disabled click shows the acknowledgement, a
worker that finds the flag cleared picks a fallback line, and a connection
failure yields the prefixed fallback. -/
theorem commentary_single_result_w :
    activation_results false false 7 "m" (BackendBehavior.raiseOuter "x") 0 =
      [click_ack_message 7] ∧
    activation_results true false 7 "m" (BackendBehavior.raiseOuter "x") 3 =
      ["Ah, humans and their compulsive button-clicking."] ∧
    activation_results true true 7 "m"
        (BackendBehavior.raiseOuter "connection refused") 1 =
      ["Falling back to: Your persistence is amusing, but futile."] := by
  refine ⟨?_, ?_, ?_⟩
  · exact (commentary_single_result false false 7 "m"
      (BackendBehavior.raiseOuter "x") 0).2.1 rfl
  · have h := (commentary_single_result true false 7 "m"
      (BackendBehavior.raiseOuter "x") 3).2.2.1 rfl rfl
    rw [h]
    rfl
  · have h := (commentary_single_result true true 7 "m"
      (BackendBehavior.raiseOuter "connection refused") 1).2.2.2.1 rfl rfl
      (gen_error_outer "m" "connection refused")
    rw [h]
    rfl

/-! ## C10 -/

/-- C10: failures are signalled in-band by the `Error:` sentinel on the
returned text, and the worker replaces any sentinel-bearing text with a
prefixed fallback line; consequently a successfully generated backend
response whose own (stripped) text begins with `Error:` is discarded and a
fallback line is shown instead of it. -/
theorem error_text_discarded (names : List String) (model resp : String)
    (seed : Nat) :
    (model ∈ names →
      generate_with_ollama model
          (BackendBehavior.listOk names (GenBehavior.ok resp)) =
        py_strip resp) ∧
    (model ∈ names → py_startswith (py_strip resp) "Error:" = true →
      fetch_snark_text true model
          (BackendBehavior.listOk names (GenBehavior.ok resp)) seed =
        "Falling back to: " ++ random_choice FALLBACK_SNARK seed) ∧
    py_startswith ("Falling back to: " ++ random_choice FALLBACK_SNARK seed)
      "Error:" = false ∧
    (model ∈ names → py_startswith (py_strip resp) "Error:" = true →
      fetch_snark_text true model
          (BackendBehavior.listOk names (GenBehavior.ok resp)) seed ≠
        py_strip resp) := by
  have hgen : ∀ h : model ∈ names,
      generate_with_ollama model
          (BackendBehavior.listOk names (GenBehavior.ok resp)) =
        py_strip resp := by
    intro h
    simp only [generate_with_ollama]
    rw [if_pos h]
  have hmain : ∀ (h : model ∈ names),
      py_startswith (py_strip resp) "Error:" = true →
      fetch_snark_text true model
          (BackendBehavior.listOk names (GenBehavior.ok resp)) seed =
        "Falling back to: " ++ random_choice FALLBACK_SNARK seed := by
    intro h hp
    unfold fetch_snark_text
    rw [hgen h]
    simp [hp]
  refine ⟨hgen, hmain, fallback_text_not_error _, ?_⟩
  intro h hp heq
  rw [hmain h hp] at heq
  rw [← heq] at hp
  rw [fallback_text_not_error] at hp
  exact Bool.false_ne_true hp

/-- C10 witness: a backend generation that succeeds but whose text begins
with the sentinel is replaced by a fallback line, via
`error_text_discarded` at a concrete input. -/
theorem error_text_discarded_w :
    fetch_snark_text true OLLAMA_MODEL
        (BackendBehavior.listOk [OLLAMA_MODEL]
          (GenBehavior.ok "Error: tea time")) 1 =
      "Falling back to: Your persistence is amusing, but futile." := by
  have h := (error_text_discarded [OLLAMA_MODEL] OLLAMA_MODEL
    "Error: tea time" 1).2.1 (by decide) (by decide)
  rw [h]
  rfl

/-! ## C8 -/

/-- C8 counterexample: the level-1 resize does not always change the width
by exactly 2 (shrinking from 7 yields 6, a change of 1), and its result is
not clamped into `[6,20]` for every starting width: widths above 20 are
reachable through the level-4 resize cited by the claim (from the initial
width 16, three level-4 resizes with draw `+4` give 20, 24, 28), and the
level-1 shrink from 28 yields 26, outside `[6,20]`. -/
theorem resize_clamp_ce :
    level1_resize 7 true = 6 ∧
    ¬(level1_resize 7 true = 7 - 2 ∨ level1_resize 7 true = 7 + 2) ∧
    post_click_width 4 16 false false true 8 = 20 ∧
    post_click_width 4 20 false false true 8 = 24 ∧
    post_click_width 4 24 false false true 8 = 28 ∧
    post_click_width 4 28 true true false 0 = 26 ∧
    ¬((26 : Int) ≤ 20) := by decide

/-- C8 (amended): at difficulty >= 1 the 50% resize either shrinks the
width to `max(6, w-2)` or grows it to `min(20, w+2)`; the change is exactly
+-2 whenever the starting width lies in `[8,18]`; the result stays in
`[6,20]` whenever the starting width lies in `[6,20]`; the resize never
takes a width below 6 (shrinking always clamps at 6, so the target never
drops below reliably-clickable size); and at difficulty 0, or when the coin
does not come up, the width is unchanged. -/
theorem resize_width_spec (w : Int) (shrink : Bool) :
    (shrink = true → level1_resize w shrink = max 6 (w - 2)) ∧
    (shrink = false → level1_resize w shrink = min 20 (w + 2)) ∧
    6 ≤ level1_resize w true ∧
    min w 6 ≤ level1_resize w shrink ∧
    (6 ≤ w → w ≤ 20 →
      6 ≤ level1_resize w shrink ∧ level1_resize w shrink ≤ 20) ∧
    (8 ≤ w → w ≤ 18 →
      (level1_resize w shrink = w - 2 ∨ level1_resize w shrink = w + 2)) ∧
    (∀ (d : Int) (sc l4 : Bool) (s4 : Nat), d < 1 →
      post_click_width d w sc shrink l4 s4 = w) ∧
    (∀ (d : Int) (s4 : Nat), post_click_width d w false shrink false s4 = w) := by
  refine ⟨?_, ?_, ?_, ?_, ?_, ?_, ?_, ?_⟩
  · intro h; subst h; rfl
  · intro h; subst h; rfl
  · simp only [level1_resize, if_pos]
    omega
  · cases shrink <;> simp only [level1_resize, if_pos, if_neg] <;> omega
  · intro h1 h2
    cases shrink <;> simp only [level1_resize, if_pos, if_neg] <;> omega
  · intro h1 h2
    cases shrink <;> simp only [level1_resize, if_pos, if_neg] <;> omega
  · intro d sc l4 s4 hd
    have h1 : ¬(1 ≤ d ∧ sc = true) := fun h => absurd h.1 (by omega)
    have h2 : ¬(4 ≤ d ∧ l4 = true) := fun h => absurd h.1 (by omega)
    simp only [post_click_width, if_neg h1, if_neg h2]
  · intro d s4
    simp [post_click_width]

/-- C8 witness: concrete instances of `resize_width_spec` at width 10 (a
change of exactly 2 staying inside `[6,20]`) and at difficulty 0 (width
untouched). -/
theorem resize_width_spec_w :
    (6 ≤ level1_resize 10 true ∧ level1_resize 10 true ≤ 20) ∧
    (level1_resize 10 true = 10 - 2 ∨ level1_resize 10 true = 10 + 2) ∧
    post_click_width 0 10 true true true 0 = 10 := by
  have h := resize_width_spec 10 true
  exact ⟨h.2.2.2.2.1 (by norm_num) (by norm_num),
    h.2.2.2.2.2.1 (by norm_num) (by norm_num),
    h.2.2.2.2.2.2.1 0 true true 0 (by norm_num)⟩

/-! ## C5 -/

/-- Distinct indices below 5 select distinct dialog themes. -/
lemma dialog_theme_inj : ∀ i < 5, ∀ j < 5, i ≠ j →
    DIALOG_THEMES.getD i default ≠ DIALOG_THEMES.getD j default := by decide

/-- C5 counterexample: a commentary request issued at difficulty 0 (after
the first click) whose dialog is rendered after the global difficulty has
reached 4 (after five clicks) is styled with the level-4 theme, not the
level-0 theme captured at request time — refuting the claim as stated. -/
theorem dialog_style_ce :
    (clicks 1).difficulty = 0 ∧
    (clicks 5).difficulty = 4 ∧
    (show_task "Well." (clicks 5)).1 = dialog_theme_for 4 ∧
    (show_task "Well." (clicks 5)).1 ≠ dialog_theme_for 0 := by
  refine ⟨rfl, rfl, rfl, by decide⟩

/-- C5 (amended): the commentary dialog is styled with the difficulty level
current at the time the result is displayed — the `_show` closure captures
only the text and reads the global difficulty when it runs — and whenever
the clamped display-time level differs from the clamped request-time level
the rendered theme differs from the request-time theme. -/
theorem dialog_style_display_time (text : String) (req disp : GameState) :
    (show_task text disp).1 = dialog_theme_for disp.difficulty ∧
    (min req.difficulty 4 ≠ min disp.difficulty 4 →
      (show_task text disp).1 ≠ dialog_theme_for req.difficulty) := by
  refine ⟨rfl, ?_⟩
  intro hne
  show dialog_theme_for disp.difficulty ≠ dialog_theme_for req.difficulty
  unfold dialog_theme_for
  have h5 : DIALOG_THEMES.length - 1 = 4 := by rfl
  rw [h5]
  exact dialog_theme_inj _ (by omega) _ (by omega) (Ne.symm hne)

/-- C5 witness: `dialog_style_display_time` applied to a request issued at
difficulty 0 and displayed at difficulty 4. -/
theorem dialog_style_display_time_w :
    (show_task "Well then." (clicks 5)).1 =
      dialog_theme_for (clicks 5).difficulty ∧
    (show_task "Well then." (clicks 5)).1 ≠
      dialog_theme_for (clicks 1).difficulty := by
  have h := dialog_style_display_time "Well then." (clicks 1) (clicks 5)
  exact ⟨h.1, h.2 (by decide)⟩

/-! ## C4 bounds lemmas -/

lemma nudge_in_bounds (winW winH bw bh : Int) (sx sy : Nat)
    (hw : bw + 10 ≤ winW) (hh : bh + 45 ≤ winH) :
    inBoundsPos winW winH bw bh (nudgePos winW winH bw bh sx sy) := by
  unfold nudgePos inBoundsPos topMargin
  have hx := randint_mem 10 (max 10 (winW - bw - 10)) sx (le_max_left _ _)
  have hy := randint_mem 40 (max 40 (winH - bh - 10)) sy (le_max_left _ _)
  have hx2 : max 10 (winW - bw - 10) ≤ winW - bw := max_le (by omega) (by omega)
  have hy2 : max 40 (winH - bh - 10) ≤ winH - bh := max_le (by omega) (by omega)
  dsimp only
  omega

lemma level2_in_bounds (winW winH bw bh : Int) (corner : Bool)
    (ci sx sy : Nat) (hw : bw + 10 ≤ winW) (hh : bh + 45 ≤ winH) :
    inBoundsPos winW winH bw bh
      (level2Pos winW winH bw bh corner ci sx sy) := by
  unfold level2Pos
  cases corner with
  | false =>
      rw [if_neg Bool.false_ne_true]
      unfold inBoundsPos topMargin
      have hx := randint_mem 5 (max 5 (winW - bw - 5)) sx (le_max_left _ _)
      have hy := randint_mem 40 (max 40 (winH - bh - 5)) sy (le_max_left _ _)
      have hx2 : max 5 (winW - bw - 5) ≤ winW - bw := max_le (by omega) (by omega)
      have hy2 : max 40 (winH - bh - 5) ≤ winH - bh := max_le (by omega) (by omega)
      dsimp only
      omega
  | true =>
      rw [if_pos rfl]
      have h4 : ci % 4 = 0 ∨ ci % 4 = 1 ∨ ci % 4 = 2 ∨ ci % 4 = 3 := by omega
      have hc0 : (cornersList winW winH bw bh).getD 0 (5, 40) = (5, 40) := rfl
      have hc1 : (cornersList winW winH bw bh).getD 1 (5, 40) =
        (winW - bw - 5, 40) := rfl
      have hc2 : (cornersList winW winH bw bh).getD 2 (5, 40) =
        (5, winH - bh - 5) := rfl
      have hc3 : (cornersList winW winH bw bh).getD 3 (5, 40) =
        (winW - bw - 5, winH - bh - 5) := rfl
      unfold inBoundsPos topMargin
      rcases h4 with h | h | h | h <;> rw [h]
      · rw [hc0]; dsimp only; omega
      · rw [hc1]; dsimp only; omega
      · rw [hc2]; dsimp only; omega
      · rw [hc3]; dsimp only; omega

lemma jiggle_in_bounds (winW winH bw bh : Int)
    (hw : bw ≤ winW) (hh : bh + 40 ≤ winH) :
    ∀ (l : List ((Int × Int) × (Int × Int))) (start : Int × Int),
      ∀ p ∈ jiggleSeq winW winH bw bh start l,
        inBoundsPos winW winH bw bh p := by
  intro l
  induction l with
  | nil => intro start p hp; simp [jiggleSeq] at hp
  | cons mj rest ih =>
      intro start p hp
      simp only [jiggleSeq, List.mem_cons] at hp
      rcases hp with rfl | hp
      · unfold jiggleStep inBoundsPos topMargin
        have hx := clamp_mem (start.1 + mj.1.1 + mj.2.1) 0
          (max 0 (winW - bw)) (le_max_left _ _)
        have hy := clamp_mem (start.2 + mj.1.2 + mj.2.2) 40
          (max 40 (winH - bh)) (le_max_left _ _)
        have hx2 : max 0 (winW - bw) = winW - bw := max_eq_right (by omega)
        have hy2 : max 40 (winH - bh) = winH - bh := max_eq_right (by omega)
        rw [hx2] at hx ⊢
        rw [hy2] at hy ⊢
        dsimp only
        omega
      · exact ih _ p hp

lemma post_click_in_bounds (difficulty winW winH bw bh : Int)
    (r : PostClickRand) (hw : bw + 10 ≤ winW) (hh : bh + 45 ≤ winH) :
    ∀ p ∈ apply_post_click_positions difficulty winW winH bw bh r,
      inBoundsPos winW winH bw bh p := by
  intro p hp
  unfold apply_post_click_positions at hp
  simp only [List.mem_cons, List.mem_append] at hp
  rcases hp with rfl | hp | hp
  · exact nudge_in_bounds winW winH bw bh r.nudgeSX r.nudgeSY hw hh
  · by_cases hc : 2 ≤ difficulty ∧ r.jumpCoin = true
    · rw [if_pos hc] at hp
      simp only [List.mem_singleton] at hp
      subst hp
      exact level2_in_bounds winW winH bw bh r.cornerCoin r.cornerIdx
        r.jumpSX r.jumpSY hw hh
    · rw [if_neg hc] at hp
      simp at hp
  · by_cases hc : 3 ≤ difficulty
    · rw [if_pos hc] at hp
      exact jiggle_in_bounds winW winH bw bh (by omega) (by omega)
        r.jiggleMJ _ p hp
    · rw [if_neg hc] at hp
      simp at hp

lemma evasion_in_bounds (s : GameState) (inp : EvasionInput) (q : Int × Int)
    (hw : inp.bw ≤ inp.winW) (hh : inp.bh + 40 ≤ inp.winH)
    (hq : on_mouse_move s inp = some q) :
    inBoundsPos inp.winW inp.winH inp.bw inp.bh q := by
  unfold on_mouse_move at hq
  split at hq
  · exact absurd hq (by simp)
  · split at hq
    · have hq2 := Option.some.inj hq
      subst hq2
      unfold inBoundsPos topMargin
      refine ⟨le_max_left _ _, max_le (by omega) (min_le_right _ _),
        le_max_left _ _, max_le (by omega) (min_le_right _ _)⟩
    · exact absurd hq (by simp)

/-! ## C4 -/

/-- C4 counterexample: the claim quantifies over every surface size, but on
a 20x200 surface with a 16-wide target the unconditional nudge places the
target at x = 10 (the `randint` range degenerates to `[10,10]`), where
`x <= surfaceWidth - targetWidth` fails (10 > 20 - 16). -/
theorem target_bounds_ce :
    apply_post_click_positions 0 20 200 16 10
        { nudgeSX := 0, nudgeSY := 0, jumpCoin := false, cornerCoin := false,
          cornerIdx := 0, jumpSX := 0, jumpSY := 0, jiggleMJ := [] } =
      [(10, 40)] ∧
    ¬ inBoundsPos 20 200 16 10 (10, 40) := by
  exact ⟨rfl, by decide⟩

/-- C4 (amended): provided the surface is large enough for the margins the
effect uses — `surfaceWidth >= targetWidth + 10` and `surfaceHeight >=
targetHeight + 45` — every position computed by the post-click effect, at
every difficulty level and for every random draw, keeps the target inside
the surface minus the reserved top margin (`0 <= x <= surfaceWidth -
targetWidth`, `40 <= y <= surfaceHeight - targetHeight`, with the target
size sampled at entry); and every position returned by the evasion handler
does so whenever `surfaceWidth >= targetWidth` and `surfaceHeight >=
targetHeight + 40`. -/
theorem target_in_bounds :
    (∀ (difficulty winW winH bw bh : Int) (r : PostClickRand),
      bw + 10 ≤ winW → bh + 45 ≤ winH →
      ∀ p ∈ apply_post_click_positions difficulty winW winH bw bh r,
        inBoundsPos winW winH bw bh p) ∧
    (∀ (s : GameState) (inp : EvasionInput) (q : Int × Int),
      inp.bw ≤ inp.winW → inp.bh + 40 ≤ inp.winH →
      on_mouse_move s inp = some q →
      inBoundsPos inp.winW inp.winH inp.bw inp.bh q) :=
  ⟨fun difficulty winW winH bw bh r hw hh =>
      post_click_in_bounds difficulty winW winH bw bh r hw hh,
   fun s inp q hw hh hq => evasion_in_bounds s inp q hw hh hq⟩

/-! ## C3 truncation and repulsion lemmas -/

lemma pyTrunc_le_of_le {x : ℝ} {b : Int} (h : x ≤ (b : ℝ)) : pyTrunc x ≤ b := by
  unfold pyTrunc
  split
  · calc ⌊x⌋ ≤ ⌊(b : ℝ)⌋ := Int.floor_le_floor h
      _ = b := Int.floor_intCast b
  · calc ⌈x⌉ ≤ ⌈(b : ℝ)⌉ := Int.ceil_le_ceil h
      _ = b := Int.ceil_intCast b

lemma le_pyTrunc_of_le {b : Int} {x : ℝ} (hb : (b : ℝ) ≤ x) (hx : 0 ≤ x) :
    b ≤ pyTrunc x := by
  unfold pyTrunc
  rw [if_pos hx]
  exact Int.le_floor.mpr hb

/-- One coordinate of the evasion move: starting from `b` within `[lo, hi]`
(with `0 <= lo`), moving by a displacement `delta` whose sign agrees with
the repulsion component `b + o - c` (center offset `o`, cursor coordinate
`c`), truncating and clamping to `[lo, hi]` stays within `[lo, hi]`, never
gets closer to the cursor, and moves in the repulsion direction. -/
lemma coord_repulse (lo hi b n0 : Int) (c o δ : ℝ)
    (hn0 : n0 = pyTrunc ((b : ℝ) + δ)) (hlo : 0 ≤ lo)
    (hb1 : lo ≤ b) (hb2 : b ≤ hi)
    (hsp : 0 ≤ (b : ℝ) + o - c → 0 ≤ δ)
    (hsn : (b : ℝ) + o - c < 0 → δ ≤ 0) :
    lo ≤ max lo (min n0 hi) ∧
    max lo (min n0 hi) ≤ hi ∧
    |(b : ℝ) + o - c| ≤ |((max lo (min n0 hi) : Int) : ℝ) + o - c| ∧
    (0 ≤ (b : ℝ) + o - c → b ≤ max lo (min n0 hi)) ∧
    ((b : ℝ) + o - c < 0 → max lo (min n0 hi) ≤ b) := by
  have hbound1 : lo ≤ max lo (min n0 hi) := le_max_left _ _
  have hbound2 : max lo (min n0 hi) ≤ hi :=
    max_le (hb1.trans hb2) (min_le_right _ _)
  rcases le_or_lt 0 ((b : ℝ) + o - c) with hv | hv
  · have hδ : 0 ≤ δ := hsp hv
    have hb0R : (0 : ℝ) ≤ (b : ℝ) := by exact_mod_cast hlo.trans hb1
    have hup : (b : ℝ) ≤ (b : ℝ) + δ := by linarith
    have hbn0 : b ≤ n0 := by
      rw [hn0]
      exact le_pyTrunc_of_le hup (le_trans hb0R hup)
    have hbnf : b ≤ max lo (min n0 hi) :=
      le_max_of_le_right (le_min hbn0 hb2)
    have hfR : (b : ℝ) ≤ ((max lo (min n0 hi) : Int) : ℝ) := by
      exact_mod_cast hbnf
    refine ⟨hbound1, hbound2, ?_, fun _ => hbnf,
      fun hcon => absurd hcon (not_lt.mpr hv)⟩
    have h2 : (b : ℝ) + o - c ≤ ((max lo (min n0 hi) : Int) : ℝ) + o - c := by
      linarith
    rw [abs_of_nonneg hv, abs_of_nonneg (le_trans hv h2)]
    exact h2
  · have hδ : δ ≤ 0 := hsn hv
    have hdown : (b : ℝ) + δ ≤ (b : ℝ) := by linarith
    have hn0b : n0 ≤ b := by
      rw [hn0]
      exact pyTrunc_le_of_le hdown
    have hnfb : max lo (min n0 hi) ≤ b :=
      max_le hb1 (le_trans (min_le_left _ _) hn0b)
    have hfR : ((max lo (min n0 hi) : Int) : ℝ) ≤ (b : ℝ) := by
      exact_mod_cast hnfb
    refine ⟨hbound1, hbound2, ?_, fun hcon => absurd hv (not_lt.mpr hcon),
      fun _ => hnfb⟩
    have h2 : ((max lo (min n0 hi) : Int) : ℝ) + o - c ≤ (b : ℝ) + o - c := by
      linarith
    rw [abs_of_neg hv, abs_of_nonpos (le_trans h2 hv.le)]
    linarith

/-- The evade flag of a reachable state is exactly `difficulty >= 3`. -/
lemma clicks_evade (n : Nat) :
    (clicks n).mouseEvadeEnabled = decide (3 ≤ (clicks n).difficulty) := by
  rw [clicks_eq]

/-- Cast of the rational squared distance to the reals. -/
lemma ptrDistSq_castR (inp : EvasionInput) (p : Int × Int) :
    ((ptrDistSq inp p : ℚ) : ℝ) =
      ((p.1 : ℝ) + (inp.bw : ℝ) / 2 - (inp.cx : ℝ)) ^ 2 +
        ((p.2 : ℝ) + (inp.bh : ℝ) / 2 - (inp.cy : ℝ)) ^ 2 := by
  unfold ptrDistSq
  push_cast
  ring

/-! ## C3 -/

/-- C3 (amended): the evasion handler returns no movement when the
difficulty level is below 3 (regardless of pointer distance), and returns
no movement when the distance is at least 100 or at most 1; in the
remaining case (level >= 3 and 1 < distance < 100, distances stated via
their squares), for a target currently inside the surface bounds it
returns a position that stays inside the bounds, is at least as far from
the pointer as before, and moves coordinate-wise in the repulsion
direction — but, as the counterexample shows, bounds clamping can pin the
target at its old position, so the new position is not always strictly
farther. -/
theorem evasion_spec :
    (∀ (n : Nat) (inp : EvasionInput), (clicks n).difficulty < 3 →
      on_mouse_move (clicks n) inp = none) ∧
    (∀ (s : GameState) (inp : EvasionInput),
      100 ≤ evadeDist inp ∨ evadeDist inp ≤ 1 →
      on_mouse_move s inp = none) ∧
    (∀ (n : Nat) (inp : EvasionInput),
      3 ≤ (clicks n).difficulty →
      1 < ptrDistSq inp (inp.bx, inp.byy) →
      ptrDistSq inp (inp.bx, inp.byy) < 10000 →
      0 ≤ inp.bx → inp.bx ≤ inp.winW - inp.bw →
      40 ≤ inp.byy → inp.byy ≤ inp.winH - inp.bh →
      ∃ q, on_mouse_move (clicks n) inp = some q ∧
        inBoundsPos inp.winW inp.winH inp.bw inp.bh q ∧
        ptrDistSq inp (inp.bx, inp.byy) ≤ ptrDistSq inp q ∧
        (0 ≤ (inp.bx : ℚ) + (inp.bw : ℚ) / 2 - (inp.cx : ℚ) →
          inp.bx ≤ q.1) ∧
        ((inp.bx : ℚ) + (inp.bw : ℚ) / 2 - (inp.cx : ℚ) < 0 →
          q.1 ≤ inp.bx) ∧
        (0 ≤ (inp.byy : ℚ) + (inp.bh : ℚ) / 2 - (inp.cy : ℚ) →
          inp.byy ≤ q.2) ∧
        ((inp.byy : ℚ) + (inp.bh : ℚ) / 2 - (inp.cy : ℚ) < 0 →
          q.2 ≤ inp.byy)) := by
  refine ⟨?_, ?_, ?_⟩
  · intro n inp hd
    have he : (clicks n).mouseEvadeEnabled = false := by
      rw [clicks_evade]
      simp only [decide_eq_false_iff_not]
      omega
    unfold on_mouse_move
    rw [if_pos he]
  · intro s inp hfar
    unfold on_mouse_move
    split
    · rfl
    · rw [if_neg]
      rintro ⟨hlt, hgt⟩
      rcases hfar with h | h
      · linarith
      · linarith
  · intro n inp hd h1 h2 hbx1 hbx2 hby1 hby2
    have he : ¬((clicks n).mouseEvadeEnabled = false) := by
      rw [clicks_evade]
      simp only [decide_eq_false_iff_not, not_not]
      omega
    have hq0 : (0 : ℚ) ≤ ptrDistSq inp (inp.bx, inp.byy) := by
      unfold ptrDistSq
      positivity
    have hD1 : 1 < evadeDist inp := by
      unfold evadeDist
      refine (Real.lt_sqrt (by norm_num)).mpr ?_
      rw [one_pow]
      exact_mod_cast h1
    have hD100 : evadeDist inp < 100 := by
      unfold evadeDist
      refine (Real.sqrt_lt' (by norm_num)).mpr ?_
      rw [show ((100 : ℝ) ^ 2) = 10000 by norm_num]
      exact_mod_cast h2
    have hD0 : (0 : ℝ) < evadeDist inp := lt_trans one_pos hD1
    have hst20 : (20 : Int) ≤ evadeStep (evadeDist inp) := by
      unfold evadeStep
      apply le_pyTrunc_of_le
      · push_cast
        exact le_max_left _ _
      · exact le_trans (by norm_num) (le_max_left 20 _)
    have hstR : (0 : ℝ) ≤ ((evadeStep (evadeDist inp) : Int) : ℝ) := by
      have h : (0 : Int) ≤ evadeStep (evadeDist inp) := by omega
      exact_mod_cast h
    have hx := coord_repulse 0 (inp.winW - inp.bw) inp.bx (evadeNewX inp)
      (inp.cx : ℝ) ((inp.bw : ℝ) / 2)
      (((inp.bx : ℝ) + (inp.bw : ℝ) / 2 - (inp.cx : ℝ)) / evadeDist inp *
        ((evadeStep (evadeDist inp) : Int) : ℝ))
      rfl le_rfl hbx1 hbx2
      (fun hv => mul_nonneg (div_nonneg hv hD0.le) hstR)
      (fun hv => mul_nonpos_iff.mpr
        (Or.inr ⟨div_nonpos_iff.mpr (Or.inr ⟨hv.le, hD0.le⟩), hstR⟩))
    have hy := coord_repulse 40 (inp.winH - inp.bh) inp.byy (evadeNewY inp)
      (inp.cy : ℝ) ((inp.bh : ℝ) / 2)
      (((inp.byy : ℝ) + (inp.bh : ℝ) / 2 - (inp.cy : ℝ)) / evadeDist inp *
        ((evadeStep (evadeDist inp) : Int) : ℝ))
      rfl (by norm_num) hby1 hby2
      (fun hv => mul_nonneg (div_nonneg hv hD0.le) hstR)
      (fun hv => mul_nonpos_iff.mpr
        (Or.inr ⟨div_nonpos_iff.mpr (Or.inr ⟨hv.le, hD0.le⟩), hstR⟩))
    refine ⟨(max 0 (min (evadeNewX inp) (inp.winW - inp.bw)),
             max 40 (min (evadeNewY inp) (inp.winH - inp.bh))),
      ?_, ?_, ?_, ?_, ?_, ?_, ?_⟩
    · unfold on_mouse_move
      rw [if_neg he, if_pos ⟨hD100, hD1⟩]
    · unfold inBoundsPos topMargin
      exact ⟨hx.1, hx.2.1, hy.1, hy.2.1⟩
    · have h2x : ((inp.bx : ℝ) + (inp.bw : ℝ) / 2 - (inp.cx : ℝ)) ^ 2 ≤
          (((max 0 (min (evadeNewX inp) (inp.winW - inp.bw)) : Int) : ℝ) +
            (inp.bw : ℝ) / 2 - (inp.cx : ℝ)) ^ 2 := by
        calc ((inp.bx : ℝ) + (inp.bw : ℝ) / 2 - (inp.cx : ℝ)) ^ 2 =
              |(inp.bx : ℝ) + (inp.bw : ℝ) / 2 - (inp.cx : ℝ)| ^ 2 :=
                (sq_abs _).symm
          _ ≤ |((max 0 (min (evadeNewX inp) (inp.winW - inp.bw)) : Int) : ℝ) +
                (inp.bw : ℝ) / 2 - (inp.cx : ℝ)| ^ 2 :=
                pow_le_pow_left₀ (abs_nonneg _) hx.2.2.1 2
          _ = _ := sq_abs _
      have h2y : ((inp.byy : ℝ) + (inp.bh : ℝ) / 2 - (inp.cy : ℝ)) ^ 2 ≤
          (((max 40 (min (evadeNewY inp) (inp.winH - inp.bh)) : Int) : ℝ) +
            (inp.bh : ℝ) / 2 - (inp.cy : ℝ)) ^ 2 := by
        calc ((inp.byy : ℝ) + (inp.bh : ℝ) / 2 - (inp.cy : ℝ)) ^ 2 =
              |(inp.byy : ℝ) + (inp.bh : ℝ) / 2 - (inp.cy : ℝ)| ^ 2 :=
                (sq_abs _).symm
          _ ≤ |((max 40 (min (evadeNewY inp) (inp.winH - inp.bh)) : Int) : ℝ) +
                (inp.bh : ℝ) / 2 - (inp.cy : ℝ)| ^ 2 :=
                pow_le_pow_left₀ (abs_nonneg _) hy.2.2.1 2
          _ = _ := sq_abs _
      have hR : ((ptrDistSq inp (inp.bx, inp.byy) : ℚ) : ℝ) ≤
          ((ptrDistSq inp
            (max 0 (min (evadeNewX inp) (inp.winW - inp.bw)),
             max 40 (min (evadeNewY inp) (inp.winH - inp.bh))) : ℚ) : ℝ) := by
        rw [ptrDistSq_castR, ptrDistSq_castR]
        exact add_le_add h2x h2y
      exact_mod_cast hR
    · intro hv
      refine hx.2.2.2.1 ?_
      have hv' : (0 : ℝ) ≤
          ((((inp.bx : ℚ) + (inp.bw : ℚ) / 2 - (inp.cx : ℚ)) : ℚ) : ℝ) := by
        exact_mod_cast hv
      push_cast at hv'
      exact hv'
    · intro hv
      refine hx.2.2.2.2 ?_
      have hv' : ((((inp.bx : ℚ) + (inp.bw : ℚ) / 2 - (inp.cx : ℚ)) : ℚ) : ℝ)
          < 0 := by
        exact_mod_cast hv
      push_cast at hv'
      exact hv'
    · intro hv
      refine hy.2.2.2.1 ?_
      have hv' : (0 : ℝ) ≤
          ((((inp.byy : ℚ) + (inp.bh : ℚ) / 2 - (inp.cy : ℚ)) : ℚ) : ℝ) := by
        exact_mod_cast hv
      push_cast at hv'
      exact hv'
    · intro hv
      refine hy.2.2.2.2 ?_
      have hv' : ((((inp.byy : ℚ) + (inp.bh : ℚ) / 2 - (inp.cy : ℚ)) : ℚ) : ℝ)
          < 0 := by
        exact_mod_cast hv
      push_cast at hv'
      exact hv'

/-! ## Concrete evaluations of the evasion handler -/

lemma ptrDistSq_inp0 : ptrDistSq inp0 (inp0.bx, inp0.byy) = 2500 := by
  norm_num [ptrDistSq, inp0]

lemma evadeDist_inp0 : evadeDist inp0 = 50 := by
  unfold evadeDist
  rw [ptrDistSq_inp0]
  rw [show ((2500 : ℚ) : ℝ) = 50 ^ 2 by norm_num]
  exact Real.sqrt_sq (by norm_num)

lemma evadeStep_50 : evadeStep 50 = 25 := by
  unfold evadeStep
  rw [show max (20 : ℝ) ((100 - 50) / 2) = 25 by norm_num]
  unfold pyTrunc
  rw [if_pos (by norm_num : (0 : ℝ) ≤ 25)]
  rw [show (25 : ℝ) = ((25 : Int) : ℝ) by norm_num]
  exact Int.floor_intCast 25

lemma evadeNewX_inp0 : evadeNewX inp0 = -25 := by
  unfold evadeNewX
  rw [evadeDist_inp0, evadeStep_50]
  rw [show (inp0.bx : ℝ) +
    ((inp0.bx : ℝ) + (inp0.bw : ℝ) / 2 - (inp0.cx : ℝ)) / 50 *
      ((25 : Int) : ℝ) = -25 by norm_num [inp0]]
  unfold pyTrunc
  rw [if_neg (by norm_num : ¬(0 : ℝ) ≤ -25)]
  rw [show (-25 : ℝ) = ((-25 : Int) : ℝ) by norm_num]
  exact Int.ceil_intCast _

lemma evadeNewY_inp0 : evadeNewY inp0 = 40 := by
  unfold evadeNewY
  rw [evadeDist_inp0, evadeStep_50]
  rw [show (inp0.byy : ℝ) +
    ((inp0.byy : ℝ) + (inp0.bh : ℝ) / 2 - (inp0.cy : ℝ)) / 50 *
      ((25 : Int) : ℝ) = 40 by norm_num [inp0]]
  unfold pyTrunc
  rw [if_pos (by norm_num : (0 : ℝ) ≤ 40)]
  rw [show (40 : ℝ) = ((40 : Int) : ℝ) by norm_num]
  exact Int.floor_intCast _

/-- At `inp0` the evasion handler fires but the clamping to the window pins
the button at its old position `(0, 40)`. -/
lemma on_mouse_move_inp0 : on_mouse_move (clicks 4) inp0 = some (0, 40) := by
  unfold on_mouse_move
  rw [if_neg (by decide : ¬((clicks 4).mouseEvadeEnabled = false))]
  rw [if_pos ⟨by rw [evadeDist_inp0]; norm_num,
              by rw [evadeDist_inp0]; norm_num⟩]
  rw [evadeNewX_inp0, evadeNewY_inp0]
  norm_num [inp0]

lemma ptrDistSq_inpB : ptrDistSq inpB (inpB.bx, inpB.byy) = 40000 := by
  norm_num [ptrDistSq, inpB]

lemma evadeDist_inpB : evadeDist inpB = 200 := by
  unfold evadeDist
  rw [ptrDistSq_inpB]
  rw [show ((40000 : ℚ) : ℝ) = 200 ^ 2 by norm_num]
  exact Real.sqrt_sq (by norm_num)

lemma ptrDistSq_inpC : ptrDistSq inpC (inpC.bx, inpC.byy) = 2500 := by
  norm_num [ptrDistSq, inpC]

lemma evadeDist_inpC : evadeDist inpC = 50 := by
  unfold evadeDist
  rw [ptrDistSq_inpC]
  rw [show ((2500 : ℚ) : ℝ) = 50 ^ 2 by norm_num]
  exact Real.sqrt_sq (by norm_num)

lemma evadeNewX_inpC : evadeNewX inpC = 115 := by
  unfold evadeNewX
  rw [evadeDist_inpC, evadeStep_50]
  rw [show (inpC.bx : ℝ) +
    ((inpC.bx : ℝ) + (inpC.bw : ℝ) / 2 - (inpC.cx : ℝ)) / 50 *
      ((25 : Int) : ℝ) = 115 by norm_num [inpC]]
  unfold pyTrunc
  rw [if_pos (by norm_num : (0 : ℝ) ≤ 115)]
  rw [show (115 : ℝ) = ((115 : Int) : ℝ) by norm_num]
  exact Int.floor_intCast _

lemma evadeNewY_inpC : evadeNewY inpC = 70 := by
  unfold evadeNewY
  rw [evadeDist_inpC, evadeStep_50]
  rw [show (inpC.byy : ℝ) +
    ((inpC.byy : ℝ) + (inpC.bh : ℝ) / 2 - (inpC.cy : ℝ)) / 50 *
      ((25 : Int) : ℝ) = 70 by norm_num [inpC]]
  unfold pyTrunc
  rw [if_pos (by norm_num : (0 : ℝ) ≤ 70)]
  rw [show (70 : ℝ) = ((70 : Int) : ℝ) by norm_num]
  exact Int.floor_intCast _

/-- At `inpC` the evasion handler moves the button from `(100, 50)` to
`(115, 70)`, away from the cursor. -/
lemma on_mouse_move_inpC :
    on_mouse_move (clicks 4) inpC = some (115, 70) := by
  unfold on_mouse_move
  rw [if_neg (by decide : ¬((clicks 4).mouseEvadeEnabled = false))]
  rw [if_pos ⟨by rw [evadeDist_inpC]; norm_num,
              by rw [evadeDist_inpC]; norm_num⟩]
  rw [evadeNewX_inpC, evadeNewY_inpC]
  norm_num [inpC]

/-- C3 counterexample: at difficulty 3, with the pointer 50 units from the
target center (inside the `(1, 100)` band), the evasion handler at `inp0`
returns the target's own current position `(0, 40)` — the repulsion step is
clamped away at the window edge — so the returned position is not strictly
farther from the pointer, refuting the claim as stated. -/
theorem evasion_strict_ce :
    (clicks 4).difficulty = 3 ∧
    1 < ptrDistSq inp0 (inp0.bx, inp0.byy) ∧
    ptrDistSq inp0 (inp0.bx, inp0.byy) < 10000 ∧
    on_mouse_move (clicks 4) inp0 = some (inp0.bx, inp0.byy) ∧
    ¬(ptrDistSq inp0 (inp0.bx, inp0.byy) <
        ptrDistSq inp0 (inp0.bx, inp0.byy)) := by
  refine ⟨by decide, ?_, ?_, ?_, lt_irrefl _⟩
  · rw [ptrDistSq_inp0]; norm_num
  · rw [ptrDistSq_inp0]; norm_num
  · exact on_mouse_move_inp0

/-- C3 witness: `evasion_spec` applied at concrete inputs — below level 3
the handler is inert, beyond the threshold it is inert, and at `inpC`
(level 3, distance 50, room to move) the returned position `(115, 70)` is
in bounds and at least as far from the pointer. -/
theorem evasion_spec_w :
    on_mouse_move (clicks 1) inp0 = none ∧
    on_mouse_move (clicks 4) inpB = none ∧
    inBoundsPos inpC.winW inpC.winH inpC.bw inpC.bh (115, 70) ∧
    ptrDistSq inpC (inpC.bx, inpC.byy) ≤ ptrDistSq inpC (115, 70) := by
  obtain ⟨q, hq, hb, hle, _, _, _, _⟩ :=
    evasion_spec.2.2 4 inpC (by decide)
      (by rw [ptrDistSq_inpC]; norm_num)
      (by rw [ptrDistSq_inpC]; norm_num)
      (by decide) (by decide) (by decide) (by decide)
  have hq2 : q = (115, 70) := Option.some.inj (hq.symm.trans on_mouse_move_inpC)
  subst hq2
  exact ⟨evasion_spec.1 1 inp0 (by decide),
    evasion_spec.2.1 (clicks 4) inpB
      (Or.inl (by rw [evadeDist_inpB]; norm_num)),
    hb, hle⟩

/-- C4 witness: `target_in_bounds` applied at concrete inputs — the nudge
position on a 320x240 surface with a 16x10 target, and the evasion result
at `inp0`. -/
theorem target_in_bounds_w :
    inBoundsPos 320 240 16 10 (nudgePos 320 240 16 10 3 5) ∧
    inBoundsPos inp0.winW inp0.winH inp0.bw inp0.bh (0, 40) := by
  constructor
  · refine target_in_bounds.1 0 320 240 16 10
      { nudgeSX := 3, nudgeSY := 5, jumpCoin := false, cornerCoin := false,
        cornerIdx := 0, jumpSX := 0, jumpSY := 0, jiggleMJ := [] }
      (by norm_num) (by norm_num) _ ?_
    unfold apply_post_click_positions
    exact List.mem_cons_self _ _
  · exact target_in_bounds.2 (clicks 4) inp0 (0, 40) (by decide) (by decide)
      on_mouse_move_inp0

end EvasiveButton
